import Mathlib

/-!
Verification of the data-access layer of the construction-management
application, shallowly embedded from `src/server/storage.ts` and
`src/shared/schema.ts`.

Modelling conventions:
* JS `Date` values are milliseconds since the epoch, as `Int` (`Date.getTime()`).
* A JS `Map<string, V>` is an association list in insertion order
  (`Map` iteration order is insertion order; `set` on an existing key keeps
  the original position, `delete` removes the entry).
* `Array.prototype.sort` with a consistent comparator is a stable ascending
  sort (ES2019); its output is the unique stable ordering, so it is modelled
  by `List.insertionSort`, which is stable.
* Ambient effects are explicit parameters: `randomUUID()` becomes an `id`
  argument, `new Date()` / `Date.now()` becomes a `now` argument, and the
  server-local calendar decomposition used by `getCalendarEvents`
  (`Date.getMonth` / `Date.getFullYear`) becomes function parameters.
* Fallible lookups return `Option`; `boolean` results stay `Bool`.
-/

namespace ConstructionApp

/-- Milliseconds since the epoch (a JS `Date` observed through `getTime()`). -/
abbrev Timestamp := Int

/-! ### Entities (src/shared/schema.ts `$inferSelect` types) -/

/-- The `Project` row: name, optional description/location, status and type texts,
timestamps. -/
structure Project where
  id : String
  name : String
  description : Option String
  location : Option String
  status : String
  ptype : String
  createdAt : Timestamp
  updatedAt : Timestamp
  deriving DecidableEq

/-- The `Photo` row. `latitude`/`longitude` are `real` columns, carried opaquely. -/
structure Photo where
  id : String
  projectId : String
  filename : String
  description : Option String
  latitude : Option Float
  longitude : Option Float
  takenAt : Timestamp
  createdAt : Timestamp

/-- The `Document` row. -/
structure Document where
  id : String
  projectId : String
  filename : String
  originalName : String
  dtype : String
  size : Int
  uploadedAt : Timestamp
  deriving DecidableEq

/-- The `MaterialTest` row. -/
structure MaterialTest where
  id : String
  name : String
  category : String
  specification : String
  createdAt : Timestamp
  updatedAt : Timestamp
  deriving DecidableEq

/-- The `TestResult` row. -/
structure TestResult where
  id : String
  projectId : String
  materialTestId : String
  result : String
  status : String
  testedAt : Timestamp
  deriving DecidableEq

/-- The `Reminder` row. -/
structure Reminder where
  id : String
  projectId : String
  title : String
  rtype : String
  scheduledFor : Timestamp
  completed : Bool
  createdAt : Timestamp
  deriving DecidableEq

/-- The `CalendarEvent` row. -/
structure CalendarEvent where
  id : String
  projectId : String
  title : String
  description : Option String
  date : Timestamp
  etype : String
  createdAt : Timestamp
  deriving DecidableEq

/-! ### Insert payloads (the `InsertX` types: generated fields omitted) -/

/-- The `InsertProject`: `id`, `createdAt`, `updatedAt` generated. -/
structure InsertProject where
  name : String
  description : Option String
  location : Option String
  status : String
  ptype : String
  deriving DecidableEq

/-- The `InsertPhoto`: `id`, `createdAt` generated; `takenAt` optional. -/
structure InsertPhoto where
  projectId : String
  filename : String
  description : Option String
  latitude : Option Float
  longitude : Option Float
  takenAt : Option Timestamp

/-- The `InsertDocument`: `id`, `uploadedAt` generated. -/
structure InsertDocument where
  projectId : String
  filename : String
  originalName : String
  dtype : String
  size : Int
  deriving DecidableEq

/-- The `InsertMaterialTest`: `id`, timestamps generated. -/
structure InsertMaterialTest where
  name : String
  category : String
  specification : String
  deriving DecidableEq

/-- The `InsertTestResult`: `id`, `testedAt` generated. -/
structure InsertTestResult where
  projectId : String
  materialTestId : String
  result : String
  status : String
  deriving DecidableEq

/-- The `InsertReminder`: `id`, `createdAt` generated. -/
structure InsertReminder where
  projectId : String
  title : String
  rtype : String
  scheduledFor : Timestamp
  completed : Bool
  deriving DecidableEq

/-- The `InsertCalendarEvent`: `id`, `createdAt` generated. -/
structure InsertCalendarEvent where
  projectId : String
  title : String
  description : Option String
  date : Timestamp
  etype : String
  deriving DecidableEq

/-- The `Partial<InsertProject>`: every field independently optional; a present
field (even a present `null`) overwrites on spread. -/
structure ProjectUpdates where
  name : Option String
  description : Option (Option String)
  location : Option (Option String)
  status : Option String
  ptype : Option String
  deriving DecidableEq

/-! ### JS `Map<string, V>` -/

/-- A JS `Map` keyed by strings, kept in insertion order. -/
abbrev JsMap (α : Type) := List (String × α)

/-- The `Map.prototype.get`. -/
def mapGet {α : Type} (m : JsMap α) (k : String) : Option α :=
  match m with
  | [] => none
  | (k', v) :: rest => if k' = k then some v else mapGet rest k

/-- The `Map.prototype.set`: overwrite in place, or append a new entry. -/
def mapSet {α : Type} (m : JsMap α) (k : String) (v : α) : JsMap α :=
  match m with
  | [] => [(k, v)]
  | (k', v') :: rest => if k' = k then (k', v) :: rest else (k', v') :: mapSet rest k v

/-- The `Map.prototype.delete`, keeping only the removal effect. -/
def mapDelete {α : Type} (m : JsMap α) (k : String) : JsMap α :=
  m.filter (fun p => p.1 != k)

/-- Whether `Map.prototype.delete` would return `true` (the key existed). -/
def mapHas {α : Type} (m : JsMap α) (k : String) : Bool :=
  (mapGet m k).isSome

/-- The `Array.from(map.values())`: values in insertion order. -/
def mapValues {α : Type} (m : JsMap α) : List α :=
  m.map Prod.snd

/-! ### Derived-view record shapes -/

/-- The `TestResult & {projectName, testName}` (flat spread modelled as base + extras). -/
structure TestResultView where
  base : TestResult
  projectName : String
  testName : String
  deriving DecidableEq

/-- The `Reminder & {projectName}`. -/
structure ReminderView where
  base : Reminder
  projectName : String
  deriving DecidableEq

/-- The `CalendarEvent & {projectName}`. -/
structure CalendarEventView where
  base : CalendarEvent
  projectName : String
  deriving DecidableEq

/-- The `ProjectWithCounts`. -/
structure ProjectWithCounts where
  base : Project
  photoCount : Nat
  documentCount : Nat
  nextInspection : Option String

/-- The `ProjectStats`. -/
structure ProjectStats where
  activeProjects : Nat
  photosCount : Nat
  pendingInspections : Nat
  documentsCount : Nat
  deriving DecidableEq

/-- The JS string-or-undefined expression `x || fallback`: both `undefined`
and the empty string are falsy, anything else is returned unchanged. -/
def strOr (x : Option String) (fallback : String) : String :=
  match x with
  | none => fallback
  | some t => if t = "" then fallback else t

/-- Mathematical ceiling of `a / b` for `b > 0`, as computed by
`Math.ceil((a : number) / b)` on these magnitudes. -/
def ceilDiv (a b : Int) : Int := -(Int.fdiv (-a) b)

/-- The constant `1000 * 60 * 60 * 24`. -/
def msPerDay : Int := 86400000

/-! ### Sort comparators (JS comparator `x - y` sorts ascending by the key;
`y - x` sorts descending) -/

/-- Reminders ascending by `scheduledFor`. -/
def remLE (a b : Reminder) : Prop := a.scheduledFor ≤ b.scheduledFor

instance : DecidableRel remLE := fun a b => Int.decLe a.scheduledFor b.scheduledFor

instance : IsTotal Reminder remLE := ⟨fun x y => Int.le_total x.scheduledFor y.scheduledFor⟩

instance : IsTrans Reminder remLE := ⟨fun _ _ _ => Int.le_trans⟩

/-- Reminder views ascending by `scheduledFor`. -/
def remViewLE (a b : ReminderView) : Prop := a.base.scheduledFor ≤ b.base.scheduledFor

instance : DecidableRel remViewLE := fun a b => Int.decLe a.base.scheduledFor b.base.scheduledFor

instance : IsTotal ReminderView remViewLE :=
  ⟨fun x y => Int.le_total x.base.scheduledFor y.base.scheduledFor⟩

instance : IsTrans ReminderView remViewLE := ⟨fun _ _ _ => Int.le_trans⟩

/-- Photos descending by `takenAt` (comparator `b.takenAt - a.takenAt`). -/
def photoDescLE (a b : Photo) : Prop := b.takenAt ≤ a.takenAt

instance : DecidableRel photoDescLE := fun a b => Int.decLe b.takenAt a.takenAt

instance : IsTotal Photo photoDescLE := ⟨fun x y => Int.le_total y.takenAt x.takenAt⟩

instance : IsTrans Photo photoDescLE := ⟨fun _ _ _ h h' => Int.le_trans h' h⟩

/-- Documents descending by `uploadedAt` (comparator `b.uploadedAt - a.uploadedAt`). -/
def docDescLE (a b : Document) : Prop := b.uploadedAt ≤ a.uploadedAt

instance : DecidableRel docDescLE := fun a b => Int.decLe b.uploadedAt a.uploadedAt

instance : IsTotal Document docDescLE := ⟨fun x y => Int.le_total y.uploadedAt x.uploadedAt⟩

instance : IsTrans Document docDescLE := ⟨fun _ _ _ h h' => Int.le_trans h' h⟩

/-! ### The store (`MemStorage`) -/

/-- The seven keyed collections of `MemStorage`. -/
structure MemStorage where
  projects : JsMap Project
  photos : JsMap Photo
  documents : JsMap Document
  materialTests : JsMap MaterialTest
  testResults : JsMap TestResult
  reminders : JsMap Reminder
  calendarEvents : JsMap CalendarEvent

/-- A store with all collections empty. -/
def emptyStorage : MemStorage :=
  ⟨[], [], [], [], [], [], []⟩

/-- The `getNextInspection(projectId)`: earliest un-completed reminder of the
project, rendered through `Math.ceil` day buckets. -/
def MemStorage.getNextInspection (s : MemStorage) (projectId : String) (now : Timestamp) :
    Option String :=
  let projectReminders :=
    List.insertionSort remLE
      ((mapValues s.reminders).filter (fun r => r.projectId == projectId && !r.completed))
  match projectReminders with
  | [] => none
  | next :: _ =>
    let diffDays := ceilDiv (next.scheduledFor - now) msPerDay
    if diffDays = 0 then some "Today"
    else if diffDays = 1 then some "Tomorrow"
    else if diffDays > 1 then some (toString diffDays ++ " days")
    else some "Overdue"

/-- The `getProjects()`: every project with derived counts and label. -/
def MemStorage.getProjects (s : MemStorage) (now : Timestamp) : List ProjectWithCounts :=
  (mapValues s.projects).map (fun project =>
    { base := project
      photoCount := ((mapValues s.photos).filter (fun p => p.projectId == project.id)).length
      documentCount := ((mapValues s.documents).filter (fun d => d.projectId == project.id)).length
      nextInspection := s.getNextInspection project.id now })

/-- The `getProject(id)`. -/
def MemStorage.getProject (s : MemStorage) (id : String) : Option Project :=
  mapGet s.projects id

/-- The `createProject(project)`, with the generated UUID and clock explicit. -/
def MemStorage.createProject (s : MemStorage) (ins : InsertProject) (id : String)
    (now : Timestamp) : Project × MemStorage :=
  let newProject : Project :=
    ⟨id, ins.name, ins.description, ins.location, ins.status, ins.ptype, now, now⟩
  (newProject, { s with projects := mapSet s.projects id newProject })

/-- The spread `{...project, ...updates}`: a present field overwrites. -/
def applyProjectUpdates (p : Project) (u : ProjectUpdates) : Project :=
  { p with
    name := u.name.getD p.name
    description := u.description.getD p.description
    location := u.location.getD p.location
    status := u.status.getD p.status
    ptype := u.ptype.getD p.ptype }

/-- The `updateProject(id, updates)`: `undefined` on a missing id, otherwise the
spread of the updates with `updatedAt = new Date()`. -/
def MemStorage.updateProject (s : MemStorage) (id : String) (u : ProjectUpdates)
    (now : Timestamp) : Option Project × MemStorage :=
  match mapGet s.projects id with
  | none => (none, s)
  | some project =>
    let updatedProject : Project := { applyProjectUpdates project u with updatedAt := now }
    (some updatedProject, { s with projects := mapSet s.projects id updatedProject })

/-- The `deleteProject(id)`: only `this.projects.delete(id)` — no cascade. -/
def MemStorage.deleteProject (s : MemStorage) (id : String) : Bool × MemStorage :=
  (mapHas s.projects id, { s with projects := mapDelete s.projects id })

/-- The `getProjectPhotos(projectId)`: matching photos, newest `takenAt` first. -/
def MemStorage.getProjectPhotos (s : MemStorage) (projectId : String) : List Photo :=
  List.insertionSort photoDescLE
    ((mapValues s.photos).filter (fun photo => photo.projectId == projectId))

/-- The `createPhoto(photo)`: `takenAt` falls back to the current time. -/
def MemStorage.createPhoto (s : MemStorage) (ins : InsertPhoto) (id : String)
    (now : Timestamp) : Photo × MemStorage :=
  let newPhoto : Photo :=
    ⟨id, ins.projectId, ins.filename, ins.description, ins.latitude, ins.longitude,
      ins.takenAt.getD now, now⟩
  (newPhoto, { s with photos := mapSet s.photos id newPhoto })

/-- The `deletePhoto(id)`. -/
def MemStorage.deletePhoto (s : MemStorage) (id : String) : Bool × MemStorage :=
  (mapHas s.photos id, { s with photos := mapDelete s.photos id })

/-- The `getProjectDocuments(projectId)`: matching documents, newest `uploadedAt`
first. -/
def MemStorage.getProjectDocuments (s : MemStorage) (projectId : String) : List Document :=
  List.insertionSort docDescLE
    ((mapValues s.documents).filter (fun doc => doc.projectId == projectId))

/-- The `createDocument(document)`. -/
def MemStorage.createDocument (s : MemStorage) (ins : InsertDocument) (id : String)
    (now : Timestamp) : Document × MemStorage :=
  let newDocument : Document :=
    ⟨id, ins.projectId, ins.filename, ins.originalName, ins.dtype, ins.size, now⟩
  (newDocument, { s with documents := mapSet s.documents id newDocument })

/-- The `deleteDocument(id)`. -/
def MemStorage.deleteDocument (s : MemStorage) (id : String) : Bool × MemStorage :=
  (mapHas s.documents id, { s with documents := mapDelete s.documents id })

/-- The `getMaterialTests()`. -/
def MemStorage.getMaterialTests (s : MemStorage) : List MaterialTest :=
  mapValues s.materialTests

/-- The `getMaterialTestsByCategory(category)`. -/
def MemStorage.getMaterialTestsByCategory (s : MemStorage) (category : String) :
    List MaterialTest :=
  (mapValues s.materialTests).filter (fun t => t.category == category)

/-- The `createMaterialTest(test)`. -/
def MemStorage.createMaterialTest (s : MemStorage) (ins : InsertMaterialTest) (id : String)
    (now : Timestamp) : MaterialTest × MemStorage :=
  let newTest : MaterialTest := ⟨id, ins.name, ins.category, ins.specification, now, now⟩
  (newTest, { s with materialTests := mapSet s.materialTests id newTest })

/-- The `getTestResults()`: joined with `project?.name || "Unknown Project"` and
`test?.name || "Unknown Test"`. -/
def MemStorage.getTestResults (s : MemStorage) : List TestResultView :=
  (mapValues s.testResults).map (fun result =>
    { base := result
      projectName := strOr ((mapGet s.projects result.projectId).map Project.name)
        "Unknown Project"
      testName := strOr ((mapGet s.materialTests result.materialTestId).map MaterialTest.name)
        "Unknown Test" })

/-- The `createTestResult(result)`. -/
def MemStorage.createTestResult (s : MemStorage) (ins : InsertTestResult) (id : String)
    (now : Timestamp) : TestResult × MemStorage :=
  let newResult : TestResult :=
    ⟨id, ins.projectId, ins.materialTestId, ins.result, ins.status, now⟩
  (newResult, { s with testResults := mapSet s.testResults id newResult })

/-- The `getActiveReminders()`: un-completed reminders, joined with the project
name, ascending by `scheduledFor`. -/
def MemStorage.getActiveReminders (s : MemStorage) : List ReminderView :=
  List.insertionSort remViewLE
    (((mapValues s.reminders).filter (fun r => !r.completed)).map (fun reminder =>
      { base := reminder
        projectName := strOr ((mapGet s.projects reminder.projectId).map Project.name)
          "Unknown Project" }))

/-- The `createReminder(reminder)`. -/
def MemStorage.createReminder (s : MemStorage) (ins : InsertReminder) (id : String)
    (now : Timestamp) : Reminder × MemStorage :=
  let newReminder : Reminder :=
    ⟨id, ins.projectId, ins.title, ins.rtype, ins.scheduledFor, ins.completed, now⟩
  (newReminder, { s with reminders := mapSet s.reminders id newReminder })

/-- The `markReminderComplete(id)`: missing id reports `false`; otherwise the
reminder is overwritten with `completed: true`. -/
def MemStorage.markReminderComplete (s : MemStorage) (id : String) : Bool × MemStorage :=
  match mapGet s.reminders id with
  | none => (false, s)
  | some reminder =>
    (true, { s with reminders := mapSet s.reminders id { reminder with completed := true } })

/-- The `getCalendarEvents(month?, year?)`: optional month/year filter in the
server's local calendar (`jsMonth`/`jsYear` are that ambient decomposition),
then the project-name join. -/
def MemStorage.getCalendarEvents (s : MemStorage) (jsMonth jsYear : Timestamp → Int)
    (month year : Option Int) : List CalendarEventView :=
  let events := mapValues s.calendarEvents
  let events :=
    match month, year with
    | some m, some y =>
      events.filter (fun (e : CalendarEvent) => jsMonth e.date == m && jsYear e.date == y)
    | _, _ => events
  events.map (fun event =>
    { base := event
      projectName := strOr ((mapGet s.projects event.projectId).map Project.name)
        "Unknown Project" })

/-- The `createCalendarEvent(event)`. -/
def MemStorage.createCalendarEvent (s : MemStorage) (ins : InsertCalendarEvent) (id : String)
    (now : Timestamp) : CalendarEvent × MemStorage :=
  let newEvent : CalendarEvent :=
    ⟨id, ins.projectId, ins.title, ins.description, ins.date, ins.etype, now⟩
  (newEvent, { s with calendarEvents := mapSet s.calendarEvents id newEvent })

/-- The `getProjectStats()`. -/
def MemStorage.getProjectStats (s : MemStorage) : ProjectStats :=
  { activeProjects := ((mapValues s.projects).filter (fun p => p.status == "active")).length
    photosCount := (mapValues s.photos).length
    pendingInspections := ((mapValues s.reminders).filter (fun r => !r.completed)).length
    documentsCount := (mapValues s.documents).length }

/-! ### The mutating operations of the `IStorage` API, as one step type.
`IStorage` exposes no reminder update or delete (`routes.ts` references
`updateReminder`/`deleteReminder`, but `MemStorage` implements neither). -/

/-- One mutating call of the storage API, with generated ids and clock
readings recorded in the operation. -/
inductive Op where
  | createProject (ins : InsertProject) (id : String) (now : Timestamp)
  | updateProject (id : String) (u : ProjectUpdates) (now : Timestamp)
  | deleteProject (id : String)
  | createPhoto (ins : InsertPhoto) (id : String) (now : Timestamp)
  | deletePhoto (id : String)
  | createDocument (ins : InsertDocument) (id : String) (now : Timestamp)
  | deleteDocument (id : String)
  | createMaterialTest (ins : InsertMaterialTest) (id : String) (now : Timestamp)
  | createTestResult (ins : InsertTestResult) (id : String) (now : Timestamp)
  | createReminder (ins : InsertReminder) (id : String) (now : Timestamp)
  | markReminderComplete (id : String)
  | createCalendarEvent (ins : InsertCalendarEvent) (id : String) (now : Timestamp)

/-- The state transition performed by one storage call. -/
def Op.step (op : Op) (s : MemStorage) : MemStorage :=
  match op with
  | .createProject ins id now => (s.createProject ins id now).2
  | .updateProject id u now => (s.updateProject id u now).2
  | .deleteProject id => (s.deleteProject id).2
  | .createPhoto ins id now => (s.createPhoto ins id now).2
  | .deletePhoto id => (s.deletePhoto id).2
  | .createDocument ins id now => (s.createDocument ins id now).2
  | .deleteDocument id => (s.deleteDocument id).2
  | .createMaterialTest ins id now => (s.createMaterialTest ins id now).2
  | .createTestResult ins id now => (s.createTestResult ins id now).2
  | .createReminder ins id now => (s.createReminder ins id now).2
  | .markReminderComplete id => (s.markReminderComplete id).2
  | .createCalendarEvent ins id now => (s.createCalendarEvent ins id now).2

/-- Freshness of `randomUUID()`: it never collides with an existing key: the id recorded in a
create operation is fresh for its collection. -/
def Op.freshIds (op : Op) (s : MemStorage) : Prop :=
  match op with
  | .createProject _ id _ => mapGet s.projects id = none
  | .createPhoto _ id _ => mapGet s.photos id = none
  | .createDocument _ id _ => mapGet s.documents id = none
  | .createMaterialTest _ id _ => mapGet s.materialTests id = none
  | .createTestResult _ id _ => mapGet s.testResults id = none
  | .createReminder _ id _ => mapGet s.reminders id = none
  | .createCalendarEvent _ id _ => mapGet s.calendarEvents id = none
  | _ => True

/-! ### Spec-side definitions (amended wording, to compare with the code) -/

/-- Amended rendering rule for `nextInspection`: with
`d = ceil((scheduledFor - now) / msPerDay)`, render `"Today"` when `d = 0`,
`"Tomorrow"` when `d = 1`, `"d days"` when `d > 1`, and `"Overdue"` when
`d < 0`. -/
def renderNextInspection (diff : Int) : String :=
  let d := ceilDiv diff msPerDay
  if d = 0 then "Today"
  else if d = 1 then "Tomorrow"
  else if d > 1 then toString d ++ " days"
  else "Overdue"

/-- Amended join rule: the displayed project name is the referenced project's
`name` when the project exists and its name is non-empty; otherwise the
literal `"Unknown Project"`. -/
def specJoinedProjectName (p : Option Project) : String :=
  match p with
  | some proj => if proj.name ≠ "" then proj.name else "Unknown Project"
  | none => "Unknown Project"

/-- Amended join rule for material-test names, with `"Unknown Test"`. -/
def specJoinedTestName (t : Option MaterialTest) : String :=
  match t with
  | some test => if test.name ≠ "" then test.name else "Unknown Test"
  | none => "Unknown Test"

/-! ### Concrete states for counterexamples and witnesses -/

/-- A project with one dependent entity of every type. -/
def projAlpha : Project := ⟨"p1", "Alpha Site", none, none, "active", "building", 100, 200⟩

def photoAlpha : Photo := ⟨"ph1", "p1", "slab.jpg", none, none, none, 300, 300⟩

def docAlpha : Document := ⟨"d1", "p1", "plan.pdf", "plan.pdf", "drawing", 2048, 400⟩

def mtAlpha : MaterialTest := ⟨"t1", "Compressive Strength", "concrete", "Min 4000 PSI", 0, 0⟩

def trAlpha : TestResult := ⟨"res1", "p1", "t1", "4500 PSI", "pass", 500⟩

def remAlpha : Reminder := ⟨"r1", "p1", "599 Inspection Due", "599", 5000, false, 100⟩

def evAlpha : CalendarEvent := ⟨"e1", "p1", "Site visit", none, 600, "visit", 100⟩

def storeC1 : MemStorage :=
  { projects := [("p1", projAlpha)]
    photos := [("ph1", photoAlpha)]
    documents := [("d1", docAlpha)]
    materialTests := [("t1", mtAlpha)]
    testResults := [("res1", trAlpha)]
    reminders := [("r1", remAlpha)]
    calendarEvents := [("e1", evAlpha)] }

/-- A reminder scheduled 1 ms before the observation time 1000. -/
def remLate : Reminder := ⟨"r2", "proj-1", "Overdue check", "599", 999, false, 0⟩

def storeC2 : MemStorage := { emptyStorage with reminders := [("r2", remLate)] }

/-- Insert payload whose `projectId` matches no project. -/
def insPhotoDangling : InsertPhoto := ⟨"nonexistent", "photo.jpg", none, none, none, none⟩

/-- An uncompleted reminder for the completion claims. -/
def remDelta : Reminder := ⟨"r5", "p1", "599 check", "599", 70, false, 0⟩

def storeC4 : MemStorage := { emptyStorage with reminders := [("r5", remDelta)] }

/-- A project whose `updatedAt` equals the clock reading of the next update. -/
def projBeta : Project := ⟨"p1", "Beta", none, none, "active", "building", 500, 1000⟩

def storeC5 : MemStorage := { emptyStorage with projects := [("p1", projBeta)] }

/-- A project that exists but has the empty string as its name, with one
test result, one active reminder and one calendar event referencing it. -/
def projNoName : Project := ⟨"p0", "", none, none, "active", "building", 0, 0⟩

def mtGamma : MaterialTest := ⟨"t9", "Slump Test", "concrete", "4 inch", 0, 0⟩

def trGamma : TestResult := ⟨"res9", "p0", "t9", "ok", "pass", 10⟩

def remGamma : Reminder := ⟨"r9", "p0", "check", "599", 50, false, 0⟩

def evGamma : CalendarEvent := ⟨"e9", "p0", "visit", none, 60, "visit", 0⟩

def storeNoName : MemStorage :=
  { emptyStorage with
    projects := [("p0", projNoName)]
    materialTests := [("t9", mtGamma)]
    testResults := [("res9", trGamma)]
    reminders := [("r9", remGamma)]
    calendarEvents := [("e9", evGamma)] }

/-- Three projects (two active, one complete) and five photos, created
through the API from the empty store. -/
def statsScenario : MemStorage :=
  let sA := (emptyStorage.createProject ⟨"A", none, none, "active", "building"⟩ "pa" 0).2
  let sB := (sA.createProject ⟨"B", none, none, "active", "infrastructure"⟩ "pb" 1).2
  let sC := (sB.createProject ⟨"C", none, none, "complete", "residential"⟩ "pc" 2).2
  let s1 := (sC.createPhoto ⟨"pa", "1.jpg", none, none, none, none⟩ "f1" 3).2
  let s2 := (s1.createPhoto ⟨"pa", "2.jpg", none, none, none, none⟩ "f2" 4).2
  let s3 := (s2.createPhoto ⟨"pb", "3.jpg", none, none, none, none⟩ "f3" 5).2
  let s4 := (s3.createPhoto ⟨"pb", "4.jpg", none, none, none, none⟩ "f4" 6).2
  (s4.createPhoto ⟨"pc", "5.jpg", none, none, none, none⟩ "f5" 7).2

/-! ## Helper lemmas -/

theorem mapGet_mapSet_self {α : Type} (m : JsMap α) (k : String) (v : α) :
    mapGet (mapSet m k v) k = some v := by
  induction m with
  | nil => simp [mapGet, mapSet]
  | cons hd tl ih =>
    obtain ⟨k', v'⟩ := hd
    by_cases h : k' = k
    · simp [mapGet, mapSet, h]
    · simp [mapGet, mapSet, h, ih]

theorem mapGet_mapSet_ne {α : Type} (m : JsMap α) (k k' : String) (v : α) (h : k ≠ k') :
    mapGet (mapSet m k v) k' = mapGet m k' := by
  induction m with
  | nil => simp [mapGet, mapSet, h]
  | cons hd tl ih =>
    obtain ⟨k₀, v₀⟩ := hd
    by_cases h0 : k₀ = k
    · subst h0
      simp [mapGet, mapSet, h]
    · simp [mapGet, mapSet, h0, ih]

theorem strOr_projectName (p : Option Project) :
    strOr (p.map Project.name) "Unknown Project" = specJoinedProjectName p := by
  cases p with
  | none => rfl
  | some proj =>
    by_cases h : proj.name = ""
    · simp [strOr, specJoinedProjectName, h]
    · simp [strOr, specJoinedProjectName, h]

theorem strOr_testName (t : Option MaterialTest) :
    strOr (t.map MaterialTest.name) "Unknown Test" = specJoinedTestName t := by
  cases t with
  | none => rfl
  | some test =>
    by_cases h : test.name = ""
    · simp [strOr, specJoinedTestName, h]
    · simp [strOr, specJoinedTestName, h]

/-- The head of an insertion sort is a member of the input and a lower bound
for it. -/
theorem insertionSort_head_lower_bound {α : Type} (r : α → α → Prop) [DecidableRel r]
    [IsTotal α r] [IsTrans α r] (l : List α) (x : α) (rest : List α)
    (h : List.insertionSort r l = x :: rest) :
    x ∈ l ∧ ∀ y ∈ l, r x y := by
  have hs : List.Sorted r (List.insertionSort r l) := List.sorted_insertionSort r l
  rw [h] at hs
  refine ⟨?_, ?_⟩
  · have hx : x ∈ List.insertionSort r l := by
      rw [h]; exact List.mem_cons_self x rest
    exact (List.mem_insertionSort r).mp hx
  · intro y hy
    have hy' : y ∈ List.insertionSort r l := (List.mem_insertionSort r).mpr hy
    rw [h] at hy'
    rcases List.mem_cons.mp hy' with rfl | h2
    · exact (total_of r y y).elim id id
    · exact List.rel_of_sorted_cons hs y h2

/-! ## Claim theorems -/

/-- C1: the spec requires `deleteProject` to cascade over all dependent
entity types, and records that the source fails to do so.  The code indeed
only deletes the project row: after `deleteProject("p1")` on a store where
project `p1` owns one photo, one document, one test result, one active
reminder and one calendar event, `getProject` reports the project gone, yet
every dependent list still returns the entity referencing `p1`. -/
theorem C1_delete_leaves_orphans :
    (storeC1.deleteProject "p1").1 = true
  ∧ (storeC1.deleteProject "p1").2.getProject "p1" = none
  ∧ ((storeC1.deleteProject "p1").2.getProjectPhotos "p1").length = 1
  ∧ ((storeC1.deleteProject "p1").2.getProjectDocuments "p1").length = 1
  ∧ ((storeC1.deleteProject "p1").2.getTestResults).map (fun v => v.base.projectId) = ["p1"]
  ∧ ((storeC1.deleteProject "p1").2.getActiveReminders).map (fun v => v.base.projectId) = ["p1"]
  ∧ ((storeC1.deleteProject "p1").2.getCalendarEvents (fun _ => 0) (fun _ => 0) none none).map
      (fun v => v.base.projectId) = ["p1"] :=
  ⟨rfl, rfl, rfl, rfl, rfl, rfl, rfl⟩

/-- C3: the spec requires `createPhoto` with a dangling `projectId` to be
rejected with IntegrityViolation, and records that the source lacks the
check.  The code indeed persists the photo: on the empty store (so
`"nonexistent"` matches no project) `createPhoto` stores and returns a
photo whose `projectId` is dangling. -/
theorem C3_dangling_photo_persisted :
    emptyStorage.getProject "nonexistent" = none
  ∧ ((emptyStorage.createPhoto insPhotoDangling "ph9" 5000).2.photos).length = 1
  ∧ mapGet (emptyStorage.createPhoto insPhotoDangling "ph9" 5000).2.photos "ph9"
      = some (emptyStorage.createPhoto insPhotoDangling "ph9" 5000).1
  ∧ (emptyStorage.createPhoto insPhotoDangling "ph9" 5000).1.projectId = "nonexistent" :=
  ⟨rfl, rfl, rfl, rfl⟩

/-- C5 (amended): updating only `description` yields a project equal to the
old one except `description = some x` and `updatedAt = now` (the clock
reading of the update); `updatedAt` strictly increases exactly when that
reading exceeds the prior value, not unconditionally. -/
theorem C5_description_update_roundtrip (s : MemStorage) (id : String) (p : Project)
    (x : String) (now : Timestamp) (h : mapGet s.projects id = some p) :
    (s.updateProject id ⟨none, some (some x), none, none, none⟩ now).1
        = some { p with description := some x, updatedAt := now }
  ∧ (s.updateProject id ⟨none, some (some x), none, none, none⟩ now).2.getProject id
        = some { p with description := some x, updatedAt := now }
  ∧ (p.updatedAt < now →
      p.updatedAt < ({ p with description := some x, updatedAt := now } : Project).updatedAt) := by
  have happ : applyProjectUpdates p ⟨none, some (some x), none, none, none⟩
      = { p with description := some x } := by
    simp [applyProjectUpdates]
  refine ⟨?_, ?_, ?_⟩
  · simp [MemStorage.updateProject, h, happ]
  · simp [MemStorage.updateProject, MemStorage.getProject, h, happ, mapGet_mapSet_self]
  · intro hlt
    simpa using hlt

theorem C5_witness :
    (storeC5.updateProject "p1" ⟨none, some (some "x"), none, none, none⟩ 2000).2.getProject "p1"
      = some { projBeta with description := some "x", updatedAt := 2000 }
  ∧ projBeta.updatedAt < (2000 : Int) :=
  ⟨(C5_description_update_roundtrip storeC5 "p1" projBeta "x" 2000 rfl).2.1, by decide⟩

/-- C5 counterexample: when the update's clock reading equals the project's
prior `updatedAt` (two calls in the same millisecond), the claim's "strictly
greater" fails: the description round-trips but `updatedAt` is unchanged. -/
theorem C5_counterexample :
    mapGet storeC5.projects "p1" = some projBeta
  ∧ projBeta.updatedAt = 1000
  ∧ (storeC5.updateProject "p1" ⟨none, some (some "x"), none, none, none⟩ 1000).2.getProject "p1"
      = some { projBeta with description := some "x", updatedAt := 1000 }
  ∧ ¬ (projBeta.updatedAt <
        ({ projBeta with description := some "x", updatedAt := 1000 } : Project).updatedAt) :=
  ⟨rfl, rfl, rfl, by decide⟩

/-- C6 (amended): `getTestResults` is total — it returns one entry per
stored test result — and each entry's `projectName`/`testName` follow the
amended join rule: the referenced entity's name when it exists and its name
is non-empty, otherwise the `"Unknown ..."` placeholder (the JS `||`
fallback also fires on an existing but empty name). -/
theorem C6_test_results_total_join (s : MemStorage) :
    (s.getTestResults).length = (mapValues s.testResults).length
  ∧ s.getTestResults = (mapValues s.testResults).map (fun r =>
      { base := r
        projectName := specJoinedProjectName (s.getProject r.projectId)
        testName := specJoinedTestName (mapGet s.materialTests r.materialTestId) }) := by
  constructor
  · simp [MemStorage.getTestResults]
  · unfold MemStorage.getTestResults MemStorage.getProject
    congr 1
    funext r
    rw [strOr_projectName, strOr_testName]

/-- C6 counterexample: a test result whose project exists but is named `""`
is reported with `projectName = "Unknown Project"`, not with the project's
actual (empty) name as the claim states. -/
theorem C6_counterexample :
    mapGet storeNoName.projects "p0" = some projNoName
  ∧ projNoName.name = ""
  ∧ (storeNoName.getTestResults).map (fun v => v.projectName) = ["Unknown Project"] :=
  ⟨rfl, rfl, rfl⟩

/-- C8: `getProjectStats` returns the count of `"active"`-status projects,
the total photo count, the count of uncompleted reminders, and the total
document count; on the scenario of three created projects (two active, one
complete) and five photos it reports 2 active projects and 5 photos. -/
theorem C8_stats_counts (s : MemStorage) :
    s.getProjectStats =
      { activeProjects := (mapValues s.projects).countP (fun p => p.status == "active")
        photosCount := (mapValues s.photos).length
        pendingInspections := (mapValues s.reminders).countP (fun r => !r.completed)
        documentsCount := (mapValues s.documents).length }
  ∧ statsScenario.getProjectStats =
      { activeProjects := 2, photosCount := 5, pendingInspections := 0, documentsCount := 0 } := by
  constructor
  · simp [MemStorage.getProjectStats, List.countP_eq_length_filter]
  · rfl

theorem markReminderComplete_of_found (s : MemStorage) (id : String) (r : Reminder)
    (h : mapGet s.reminders id = some r) :
    s.markReminderComplete id =
      (true, { s with reminders := mapSet s.reminders id { r with completed := true } }) := by
  simp [MemStorage.markReminderComplete, h]

theorem markReminderComplete_of_missing (s : MemStorage) (id : String)
    (h : mapGet s.reminders id = none) :
    s.markReminderComplete id = (false, s) := by
  simp [MemStorage.markReminderComplete, h]

theorem completed_of_same_reminders {m : JsMap Reminder} {rid : String} {r0 r1 : Reminder}
    (h0 : mapGet m rid = some r0) (hc : r0.completed = true)
    (h1 : mapGet m rid = some r1) : r1.completed = true := by
  rw [h0] at h1
  exact (Option.some.inj h1) ▸ hc

/-- C4: completing a present reminder succeeds and sets `completed = true`;
doing it again still succeeds and leaves `completed = true`; a missing id
reports `false` with the store untouched; and no operation of the storage
API (with fresh generated ids) ever moves a reminder's `completed` from
`true` back to `false`. -/
theorem C4_completion_idempotent_monotonic (s : MemStorage) :
    (∀ id r, mapGet s.reminders id = some r →
        (s.markReminderComplete id).1 = true
      ∧ mapGet (s.markReminderComplete id).2.reminders id = some { r with completed := true }
      ∧ ((s.markReminderComplete id).2.markReminderComplete id).1 = true
      ∧ mapGet ((s.markReminderComplete id).2.markReminderComplete id).2.reminders id
          = some { r with completed := true })
  ∧ (∀ id, mapGet s.reminders id = none → s.markReminderComplete id = (false, s))
  ∧ (∀ (op : Op) (rid : String) (r0 r1 : Reminder), op.freshIds s →
      mapGet s.reminders rid = some r0 → r0.completed = true →
      mapGet (op.step s).reminders rid = some r1 → r1.completed = true) := by
  refine ⟨?_, ?_, ?_⟩
  · intro id r h
    rw [markReminderComplete_of_found s id r h]
    have h1 : mapGet (mapSet s.reminders id { r with completed := true }) id
        = some { r with completed := true } := mapGet_mapSet_self _ _ _
    rw [markReminderComplete_of_found _ id { r with completed := true } h1]
    exact ⟨rfl, h1, rfl, mapGet_mapSet_self _ _ _⟩
  · intro id h
    exact markReminderComplete_of_missing s id h
  · intro op rid r0 r1 hfresh h0 hc h1
    cases op with
    | createProject ins id now => exact completed_of_same_reminders h0 hc h1
    | updateProject id u now =>
        have hrem : ((Op.updateProject id u now).step s).reminders = s.reminders := by
          show (s.updateProject id u now).2.reminders = s.reminders
          unfold MemStorage.updateProject
          cases mapGet s.projects id <;> rfl
        rw [hrem] at h1
        exact completed_of_same_reminders h0 hc h1
    | deleteProject id => exact completed_of_same_reminders h0 hc h1
    | createPhoto ins id now => exact completed_of_same_reminders h0 hc h1
    | deletePhoto id => exact completed_of_same_reminders h0 hc h1
    | createDocument ins id now => exact completed_of_same_reminders h0 hc h1
    | deleteDocument id => exact completed_of_same_reminders h0 hc h1
    | createMaterialTest ins id now => exact completed_of_same_reminders h0 hc h1
    | createTestResult ins id now => exact completed_of_same_reminders h0 hc h1
    | createReminder ins id now =>
        have hfresh' : mapGet s.reminders id = none := hfresh
        have hstep : ((Op.createReminder ins id now).step s).reminders
            = mapSet s.reminders id
                ⟨id, ins.projectId, ins.title, ins.rtype, ins.scheduledFor, ins.completed, now⟩ :=
          rfl
        rw [hstep] at h1
        by_cases hid : id = rid
        · subst hid
          rw [hfresh'] at h0
          simp at h0
        · rw [mapGet_mapSet_ne _ _ _ _ hid] at h1
          exact completed_of_same_reminders h0 hc h1
    | markReminderComplete id =>
        cases hm : mapGet s.reminders id with
        | none =>
            have hstep : (Op.markReminderComplete id).step s = s := by
              show (s.markReminderComplete id).2 = s
              rw [markReminderComplete_of_missing s id hm]
            rw [hstep] at h1
            exact completed_of_same_reminders h0 hc h1
        | some rem =>
            have hstep : (Op.markReminderComplete id).step s
                = { s with reminders := mapSet s.reminders id { rem with completed := true } } := by
              show (s.markReminderComplete id).2 = _
              rw [markReminderComplete_of_found s id rem hm]
            rw [hstep] at h1
            by_cases hid : id = rid
            · subst hid
              rw [mapGet_mapSet_self] at h1
              rw [← Option.some.inj h1]
            · rw [mapGet_mapSet_ne _ _ _ _ hid] at h1
              exact completed_of_same_reminders h0 hc h1
    | createCalendarEvent ins id now => exact completed_of_same_reminders h0 hc h1

theorem C4_witness :
    (storeC4.markReminderComplete "r5").1 = true
  ∧ mapGet (storeC4.markReminderComplete "r5").2.reminders "r5"
      = some { remDelta with completed := true }
  ∧ ((storeC4.markReminderComplete "r5").2.markReminderComplete "r5").1 = true
  ∧ storeC4.markReminderComplete "missing" = (false, storeC4) := by
  have h := C4_completion_idempotent_monotonic storeC4
  have h1 := h.1 "r5" remDelta rfl
  exact ⟨h1.1, h1.2.1, h1.2.2.1, h.2.1 "missing" rfl⟩

/-- C7: `getActiveReminders` returns no completed reminder, returns exactly
(as a permutation) the stored reminders with `completed = false`, and is
sorted ascending by `scheduledFor`. -/
theorem C7_active_reminders_filter_sort (s : MemStorage) :
    ((s.getActiveReminders).all (fun v => !v.base.completed)) = true
  ∧ ((s.getActiveReminders).map ReminderView.base).Perm
      ((mapValues s.reminders).filter (fun r => !r.completed))
  ∧ (s.getActiveReminders).Pairwise remViewLE := by
  have hperm : (s.getActiveReminders).Perm
      (((mapValues s.reminders).filter (fun r => !r.completed)).map (fun reminder =>
        ({ base := reminder
           projectName := strOr ((mapGet s.projects reminder.projectId).map Project.name)
             "Unknown Project" } : ReminderView))) :=
    List.perm_insertionSort _ _
  refine ⟨?_, ?_, ?_⟩
  · rw [List.all_eq_true]
    intro v hv
    rcases List.mem_map.mp (hperm.mem_iff.mp hv) with ⟨r, hr, rfl⟩
    exact (List.mem_filter.mp hr).2
  · have hmap := hperm.map ReminderView.base
    rw [List.map_map] at hmap
    rw [show (ReminderView.base ∘ fun reminder =>
        ({ base := reminder
           projectName := strOr ((mapGet s.projects reminder.projectId).map Project.name)
             "Unknown Project" } : ReminderView)) = id from rfl, List.map_id] at hmap
    exact hmap
  · exact List.sorted_insertionSort remViewLE _

/-- C9: `getProjectPhotos` returns exactly (as a permutation) the photos
with the given `projectId`, sorted descending by `takenAt`, and
`getProjectDocuments` the matching documents sorted descending by
`uploadedAt`. -/
theorem C9_project_media_filter_sort (s : MemStorage) (projectId : String) :
    (s.getProjectPhotos projectId).Perm
        ((mapValues s.photos).filter (fun p => p.projectId == projectId))
  ∧ (s.getProjectPhotos projectId).Pairwise photoDescLE
  ∧ (s.getProjectDocuments projectId).Perm
        ((mapValues s.documents).filter (fun d => d.projectId == projectId))
  ∧ (s.getProjectDocuments projectId).Pairwise docDescLE :=
  ⟨List.perm_insertionSort _ _, List.sorted_insertionSort _ _,
   List.perm_insertionSort _ _, List.sorted_insertionSort _ _⟩

theorem some_renderNextInspection (diff : Int) :
    (let diffDays := ceilDiv diff msPerDay
     if diffDays = 0 then some "Today"
     else if diffDays = 1 then some "Tomorrow"
     else if diffDays > 1 then some (toString diffDays ++ " days")
     else some "Overdue") = some (renderNextInspection diff) := by
  unfold renderNextInspection
  by_cases h0 : ceilDiv diff msPerDay = 0
  · simp [h0]
  · by_cases h1 : ceilDiv diff msPerDay = 1
    · simp [h0, h1]
    · by_cases h2 : ceilDiv diff msPerDay > 1
      · simp [h0, h1, h2]
      · simp [h0, h1, h2]

/-- C2 (amended): when the project has an uncompleted reminder of minimal
`scheduledFor`, `getNextInspection` renders the `Math.ceil` day-bucket of
`scheduledFor - now`: with `d = ceil(diff / 1 day)`, `"Today"` for `d = 0`
(that is, `-24h < diff <= 0`, including `now - 1ms`), `"Tomorrow"` for
`d = 1`, `"d days"` for `d > 1` (so `now + 25h` gives `"2 days"`), and
`"Overdue"` only for `diff <= -24h`. -/
theorem C2_next_inspection_rendering (s : MemStorage) (pid : String) (r : Reminder)
    (now : Timestamp) (hmem : r ∈ mapValues s.reminders) (hpid : r.projectId = pid)
    (hact : r.completed = false)
    (hmin : ∀ r' ∈ mapValues s.reminders, r'.projectId = pid → r'.completed = false →
      r.scheduledFor ≤ r'.scheduledFor) :
    s.getNextInspection pid now = some (renderNextInspection (r.scheduledFor - now))
  ∧ renderNextInspection 0 = "Today"
  ∧ renderNextInspection (-1) = "Today"
  ∧ renderNextInspection (25 * 60 * 60 * 1000) = "2 days" := by
  have hrf : r ∈ (mapValues s.reminders).filter
      (fun r' => r'.projectId == pid && !r'.completed) := by
    refine List.mem_filter.mpr ⟨hmem, ?_⟩
    simp [hpid, hact]
  obtain ⟨next, rest, heq⟩ : ∃ next rest,
      List.insertionSort remLE ((mapValues s.reminders).filter
        (fun r' => r'.projectId == pid && !r'.completed)) = next :: rest := by
    cases hcase : List.insertionSort remLE ((mapValues s.reminders).filter
        (fun r' => r'.projectId == pid && !r'.completed)) with
    | nil =>
        exfalso
        have hmem' : r ∈ List.insertionSort remLE ((mapValues s.reminders).filter
            (fun r' => r'.projectId == pid && !r'.completed)) :=
          (List.mem_insertionSort remLE).mpr hrf
        rw [hcase] at hmem'
        cases hmem'
    | cons a l => exact ⟨a, l, rfl⟩
  obtain ⟨hnextmem, hlb⟩ := insertionSort_head_lower_bound remLE _ next rest heq
  have hnf := List.mem_filter.mp hnextmem
  have hnprops : next.projectId = pid ∧ next.completed = false := by
    have h2 := hnf.2
    simp at h2
    exact h2
  have hle1 : next.scheduledFor ≤ r.scheduledFor := hlb r hrf
  have hle2 : r.scheduledFor ≤ next.scheduledFor :=
    hmin next hnf.1 hnprops.1 hnprops.2
  have hsched : next.scheduledFor = r.scheduledFor := le_antisymm hle1 hle2
  refine ⟨?_, rfl, rfl, rfl⟩
  unfold MemStorage.getNextInspection
  rw [heq]
  show (let diffDays := ceilDiv (next.scheduledFor - now) msPerDay
        if diffDays = 0 then some "Today"
        else if diffDays = 1 then some "Tomorrow"
        else if diffDays > 1 then some (toString diffDays ++ " days")
        else some "Overdue") = some (renderNextInspection (r.scheduledFor - now))
  rw [hsched]
  exact some_renderNextInspection (r.scheduledFor - now)

theorem C2_witness :
    storeC2.getNextInspection "proj-1" 1000
      = some (renderNextInspection (remLate.scheduledFor - 1000)) :=
  (C2_next_inspection_rendering storeC2 "proj-1" remLate 1000 (by decide) rfl rfl
    (by decide)).1

/-- C2 counterexample: a reminder scheduled 1 ms before `now` renders as
`"Today"`, not `"Overdue"` as the claim states for `scheduledFor < now`. -/
theorem C2_counterexample :
    remLate.scheduledFor < 1000
  ∧ storeC2.getNextInspection "proj-1" 1000 = some "Today"
  ∧ storeC2.getNextInspection "proj-1" 1000 ≠ some "Overdue" :=
  ⟨by decide, rfl, by decide⟩

/-- C10: when the referenced project exists but its name is the empty
string, every joined list view (`getTestResults`, `getActiveReminders`,
`getCalendarEvents`) reports `projectName = "Unknown Project"` for entries
referencing it. -/
theorem C10_empty_name_renders_unknown (s : MemStorage) (pid : String) (p : Project)
    (jsMonth jsYear : Timestamp → Int) (month year : Option Int)
    (hp : mapGet s.projects pid = some p) (hname : p.name = "") :
    ((s.getTestResults).all
        (fun v => v.base.projectId != pid || v.projectName == "Unknown Project")) = true
  ∧ ((s.getActiveReminders).all
        (fun v => v.base.projectId != pid || v.projectName == "Unknown Project")) = true
  ∧ ((s.getCalendarEvents jsMonth jsYear month year).all
        (fun v => v.base.projectId != pid || v.projectName == "Unknown Project")) = true := by
  have hjoin : ∀ x : String, x = pid →
      strOr ((mapGet s.projects x).map Project.name) "Unknown Project" = "Unknown Project" := by
    intro x hx
    subst hx
    rw [hp]
    simp [strOr, hname]
  refine ⟨?_, ?_, ?_⟩
  · rw [List.all_eq_true]
    intro v hv
    rcases List.mem_map.mp hv with ⟨tr, _, rfl⟩
    by_cases hx : tr.projectId = pid
    · simp [MemStorage.getTestResults, hjoin tr.projectId hx]
    · simp [hx]
  · rw [List.all_eq_true]
    intro v hv
    have hv' := (List.mem_insertionSort remViewLE).mp hv
    rcases List.mem_map.mp hv' with ⟨rm, _, rfl⟩
    by_cases hx : rm.projectId = pid
    · simp [hjoin rm.projectId hx]
    · simp [hx]
  · rw [List.all_eq_true]
    intro v hv
    simp only [MemStorage.getCalendarEvents] at hv
    rcases List.mem_map.mp hv with ⟨ev, _, rfl⟩
    by_cases hx : ev.projectId = pid
    · simp [hjoin ev.projectId hx]
    · simp [hx]

theorem C10_witness :
    ((storeNoName.getTestResults).all
        (fun v => v.base.projectId != "p0" || v.projectName == "Unknown Project")) = true
  ∧ ((storeNoName.getActiveReminders).all
        (fun v => v.base.projectId != "p0" || v.projectName == "Unknown Project")) = true
  ∧ ((storeNoName.getCalendarEvents (fun _ => 0) (fun _ => 0) none none).all
        (fun v => v.base.projectId != "p0" || v.projectName == "Unknown Project")) = true :=
  C10_empty_name_renders_unknown storeNoName "p0" projNoName (fun _ => 0) (fun _ => 0)
    none none rfl rfl

end ConstructionApp
